import Mathlib

/-!
Verification of the node-reconciliation logic of the `rax_clb_nodes` module
(`src/cloud/rackspace/rax_clb_nodes.py`), a declarative manager for nodes of a
Rackspace cloud load balancer.  The module's decision logic (`_get_node`,
`_is_primary`, `_get_primary_nodes`, and the body of `main`) is shallowly
embedded below; collaborator calls (`delete_node`, `add_nodes`, `update_node`)
are modelled as succeeding, with the remote response for a create and the
possible not-found race on delete supplied as parameters, and the status poll
(`pyrax.utils.wait_until`) modelled as reading a stream of statuses.
-/

namespace RaxClbNodes

/-- A typed value inside a result dictionary (Python dicts mix strings and ints). -/
inductive Value where
  | str (s : String)
  | int (i : Int)
deriving DecidableEq, Repr

/-- A Python dict with string keys, as an association list. -/
abbrev Dict := List (String × Value)

/-- A load-balancer node as exposed by pyrax: `id`, `address`, `port`,
`condition` (for example "ENABLED"), `type` (for example "PRIMARY"), `weight`. -/
structure Node where
  id : Int
  address : String
  port : Int
  condition : String
  typ : String
  weight : Int
deriving DecidableEq, Repr

/-- A load balancer: its `status` string and its node list. -/
structure LB where
  id : Int
  status : String
  nodes : List Node
deriving DecidableEq, Repr

/-- The module parameters relevant to the reconciliation decision
(`address`, `condition`, `node_id`, `port`, `state`, `type`, `wait`,
`wait_timeout`, `weight`); optional integer/string parameters are `Option`. -/
structure Params where
  address : Option String
  condition : Option String
  node_id : Option Int
  port : Option Int
  state : String
  typ : Option String
  wait : Bool
  wait_timeout : Option Int
  weight : Option Int
deriving DecidableEq, Repr

/-- The `match_list` built inside `_get_node`: one Boolean per supplied
criterion, comparing it against the node's attribute. -/
def match_list (n : Node) (node_id : Option Int) (address : Option String)
    (port : Option Int) : List Bool :=
  (match node_id with | some i => [n.id == i] | none => []) ++
  (match address with | some a => [n.address == a] | none => []) ++
  (match port with | some q => [n.port == q] | none => [])

/-- The per-node test of `_get_node`: `match_list and all(match_list)` —
the match list is non-empty and every entry is true. -/
def matchesCriteria (n : Node) (node_id : Option Int) (address : Option String)
    (port : Option Int) : Bool :=
  !(match_list n node_id address port).isEmpty &&
    (match_list n node_id address port).all id

/-- Embedding of `_get_node`: return the first node of the collection whose
match list is non-empty and all-true, else `none`. -/
def get_node (nodes : List Node) (node_id : Option Int) (address : Option String)
    (port : Option Int) : Option Node :=
  nodes.find? (fun n => matchesCriteria n node_id address port)

/-- Python `str.upper()` on ASCII strings, character by character. -/
def pyUpper (s : String) : String := String.mk (s.data.map Char.toUpper)

/-- Python `str.lower()` on ASCII strings, character by character. -/
def pyLower (s : String) : String := String.mk (s.data.map Char.toLower)

/-- Embedding of `_is_primary`: true iff the node's type lowercases to
"primary" and its condition lowercases to "enabled". -/
def is_primary (n : Node) : Bool :=
  pyLower n.typ == "primary" && pyLower n.condition == "enabled"

/-- Embedding of `_get_primary_nodes`: the sublist of primary-and-enabled nodes. -/
def get_primary_nodes (lb : LB) : List Node :=
  lb.nodes.filter is_primary

/-- The predicate "every supplied (non-null) criterion matches the node's
corresponding attribute", as a decidable test.  Differs from
`matchesCriteria` only when all three criteria are null. -/
def criteriaHold (n : Node) (node_id : Option Int) (address : Option String)
    (port : Option Int) : Bool :=
  (match node_id with | some i => n.id == i | none => true) &&
  (match address with | some a => n.address == a | none => true) &&
  (match port with | some q => n.port == q | none => true)

/-- Python truthiness of an optional integer (`if node_id:`):
false for `None` and for `0`. -/
def pyTruthyInt : Option Int → Bool
  | none => false
  | some n => !(n == 0)

/-- Line 204 of the module: `wait_timeout = module.params['wait_timeout'] or 1`
— Python `or` replaces a falsy value (`None` or `0`) by `1` and keeps any
other integer unchanged. -/
def pyOrTimeout : Option Int → Int
  | none => 1
  | some n => if n == 0 then 1 else n

/-- Modelled from the spec: `rax_clb_node_to_dict` (from
`ansible.module_utils.rax`, not part of this repository's sources) converts a
node to the dictionary of its public attributes, and `None` to the empty
dictionary ("the resulting node's public attributes"). -/
def rax_clb_node_to_dict : Option Node → Dict
  | none => []
  | some n =>
      [("address", Value.str n.address), ("condition", Value.str n.condition),
       ("id", Value.int n.id), ("port", Value.int n.port),
       ("type", Value.str n.typ), ("weight", Value.int n.weight)]

/-- Python `dict.update`: entries of `u` override entries of `d` with the same
key; keys of `u` not in `d` are added. -/
def dictUpdate (d u : Dict) : Dict :=
  d.map (fun kv =>
    match u.find? (fun kv2 => kv2.1 == kv.1) with
    | some kv2 => kv2
    | none => kv) ++
  u.filter (fun kv2 => !(d.any (fun kv => kv.1 == kv2.1)))

/-- The `mutable` dictionary of lines 265-273: start from
{condition, type, weight} and drop every attribute whose desired value is
`None` or equal to the node's current attribute. -/
def mutableDiff (n : Node) (condition typ : Option String) (weight : Option Int) :
    Dict :=
  (match condition with
   | some c => if c == n.condition then [] else [("condition", Value.str c)]
   | none => []) ++
  (match typ with
   | some t => if t == n.typ then [] else [("type", Value.str t)]
   | none => []) ++
  (match weight with
   | some w => if w == n.weight then [] else [("weight", Value.int w)]
   | none => [])

/-- The failure message of lines 250-253: `'Node %d not found'`, extended with
`' (available nodes: ...)'` when the balancer's node list is non-empty. -/
def nodeNotFoundMsg (nid : Int) (nodes : List Node) : String :=
  "Node " ++ toString nid ++ " not found" ++
  (if nodes.isEmpty then ""
   else " (available nodes: " ++
        String.intercalate ", " (nodes.map (fun n => toString n.id)) ++ ")")

/-- The mutation a fall-through branch of `main` performs before the wait. -/
inductive Mutation where
  | deleted (n : Node)
  | created (address : Option String) (port : Option Int)
      (condition typ : Option String) (weight : Option Int)
  | updated (n : Node) (diff : Dict)
deriving DecidableEq, Repr

/-- What the state-handling block (lines 230-284) does: an early
`exit_json(changed=..., ...)`, an early `fail_json(msg)`, or a mutation that
falls through to the wait/final-exit code with the `result` dictionary. -/
inductive StepResult where
  | earlyExit (changed : Bool) (node : Option Dict)
  | earlyFail (msg : String)
  | mutated (m : Mutation) (result : Dict)
deriving DecidableEq, Repr

/-- The state-handling block of `main` (lines 230-284).  `node` is the lookup
result, `deleteNotFound` models the `pyrax.exc.NotFound` race on
`delete_node`, and `createdBody` models `body['nodes'][0]` returned by
`add_nodes`. -/
def stateStep (lb : LB) (state : String) (node_id : Option Int)
    (address : Option String) (port : Option Int) (condition typ : Option String)
    (weight : Option Int) (node : Option Node) (deleteNotFound : Bool)
    (createdBody : Dict) : StepResult :=
  if state == "absent" then
    match node with
    | none => .earlyExit false none
    | some n =>
      if is_primary n && ((get_primary_nodes lb).length == 1) then
        .earlyFail "At least one primary node has to be enabled"
      else if deleteNotFound then
        .earlyExit false none
      else
        .mutated (.deleted n) []
  else
    match node with
    | none =>
      if pyTruthyInt node_id then
        .earlyFail (nodeNotFoundMsg (node_id.getD 0) lb.nodes)
      else
        .mutated (.created address port condition typ weight)
          (dictUpdate (rax_clb_node_to_dict none) createdBody)
    | some n =>
      let d := mutableDiff n condition typ weight
      if d.isEmpty then
        .earlyExit false (some (rax_clb_node_to_dict (some n)))
      else
        .mutated (.updated n d) (dictUpdate (rax_clb_node_to_dict (some n)) d)

/-- Modelled from the spec: `pyrax.utils.wait_until(lb, "status", "ACTIVE",
interval=1, attempts=n)` (the collaborator's polling primitive) re-reads the
balancer status once per second, stopping as soon as it reads "ACTIVE" or
after `n` attempts.  `wait_until_go statuses k last fuel` returns the total
number of polls made so far and the last status observed, where `statuses j`
is the status read by poll number `j` (0-based) and `last` is the status seen
before any remaining poll. -/
def wait_until_go (statuses : Nat → String) (k : Nat) (last : String) :
    Nat → Nat × String
  | 0 => (k, last)
  | fuel + 1 =>
    let s := statuses k
    if s == "ACTIVE" then (k + 1, s) else wait_until_go statuses (k + 1) s fuel

/-- Number of poll attempts the wait step performs: zero when `wait` is false,
otherwise governed by the coerced timeout. -/
def pollCount (wait : Bool) (wait_timeout : Option Int) (init : String)
    (statuses : Nat → String) : Nat :=
  if wait then (wait_until_go statuses 0 init (pyOrTimeout wait_timeout).toNat).1
  else 0

/-- A successful `exit_json`: the `changed` flag, the echoed `state`, and the
optional `node` payload. -/
structure ExitOk where
  changed : Bool
  state : String
  node : Option Dict
deriving DecidableEq, Repr

/-- The observable outcome of one invocation: a successful exit or a
`fail_json` with a message. -/
inductive Outcome where
  | ok (e : ExitOk)
  | fail (msg : String)
deriving DecidableEq, Repr

/-- The reconciliation pipeline of `main` from the lookup (line 226) to the
final exit (line 295): parameter normalisation (upper-casing of
condition/type, `or 1` on the timeout), lookup, the state-handling block, the
optional wait-for-ACTIVE poll, and the final `exit_json` whose `node` key is
present exactly when the `result` dictionary is non-empty. -/
def runMain (lb : LB) (p : Params) (deleteNotFound : Bool) (createdBody : Dict)
    (statuses : Nat → String) : Outcome :=
  let condition := p.condition.map pyUpper
  let typ := p.typ.map pyUpper
  let wait_timeout := pyOrTimeout p.wait_timeout
  let node := get_node lb.nodes p.node_id p.address p.port
  match stateStep lb p.state p.node_id p.address p.port condition typ p.weight
      node deleteNotFound createdBody with
  | .earlyExit c nd => .ok ⟨c, p.state, nd⟩
  | .earlyFail m => .fail m
  | .mutated _ result =>
    if p.wait then
      let finalStatus := (wait_until_go statuses 0 lb.status wait_timeout.toNat).2
      if !(finalStatus == "ACTIVE") then
        .fail ("Load balancer not active after " ++ toString wait_timeout ++
               "s (current status: " ++ pyLower finalStatus ++ ")")
      else
        .ok ⟨true, p.state, if result.isEmpty then none else some result⟩
    else
      .ok ⟨true, p.state, if result.isEmpty then none else some result⟩

/-! Concrete instances used to evaluate the development on explicit inputs. -/

/-- A primary, enabled node, as pyrax would report it. -/
def nodeP : Node := ⟨1, "10.0.0.1", 80, "ENABLED", "PRIMARY", 1⟩

/-- A secondary, enabled node. -/
def nodeS : Node := ⟨2, "10.0.0.2", 80, "ENABLED", "SECONDARY", 1⟩

/-- A balancer whose only node is the primary `nodeP`. -/
def lbOnlyPrimary : LB := ⟨71, "ACTIVE", [nodeP]⟩

/-- A balancer with the primary `nodeP` and the secondary `nodeS`. -/
def lbTwoNodes : LB := ⟨71, "ACTIVE", [nodeP, nodeS]⟩

/-- Request: delete node 1 (the only primary) from its balancer. -/
def pDeletePrimary : Params :=
  ⟨none, none, some 1, none, "absent", none, false, none, none⟩

/-- Request with `node_id = 0`: `state=present`, full creation attributes. -/
def pZeroNodeId : Params :=
  ⟨some "10.0.0.3", some "enabled", some 0, some 8080, "present", some "primary",
   false, none, some 1⟩

/-- Remote response body for the node created by `pZeroNodeId`. -/
def bodyZeroNodeId : Dict :=
  [("address", Value.str "10.0.0.3"), ("condition", Value.str "ENABLED"),
   ("id", Value.int 3), ("port", Value.int 8080),
   ("type", Value.str "PRIMARY"), ("weight", Value.int 1)]

/-- Request: update the non-existent node 999. -/
def pUpdateMissing : Params :=
  ⟨none, some "draining", some 999, none, "present", none, false, none, none⟩

/-- Request: delete the non-existent node 999. -/
def pDeleteMissing : Params :=
  ⟨none, none, some 999, none, "absent", none, false, none, none⟩

/-- Request: re-assert the attributes `nodeP` already has. -/
def pIdempotent : Params :=
  ⟨some "10.0.0.1", some "enabled", none, some 80, "present", some "primary",
   false, none, some 1⟩

/-- Request: delete the secondary node 2 (safe: the primary remains). -/
def pDeleteSecondary : Params :=
  ⟨none, none, some 2, none, "absent", none, false, none, none⟩

/-- Request: create a node (no identifying criteria) and wait with a
5-attempt timeout. -/
def pCreateWait : Params :=
  ⟨some "10.0.0.4", some "enabled", none, some 80, "present", some "secondary",
   true, some 5, none⟩

/-- Remote response body for the node created by `pCreateWait`. -/
def bodyCreateWait : Dict :=
  [("address", Value.str "10.0.0.4"), ("condition", Value.str "ENABLED"),
   ("id", Value.int 4), ("port", Value.int 80),
   ("type", Value.str "SECONDARY"), ("weight", Value.int 1)]

/-- Request: create a node, no wait. -/
def pCreateNoWait : Params :=
  ⟨some "10.0.0.4", some "enabled", none, some 80, "present", some "secondary",
   false, none, none⟩

/-- Request: put node 1 into DRAINING condition. -/
def pDrainPrimary : Params :=
  ⟨none, some "draining", some 1, none, "present", none, false, none, none⟩

/-! Helper lemmas. -/

/-- A successful `find?` yields an element satisfying the test. -/
theorem find_sat {α : Type} (p : α → Bool) :
    ∀ (l : List α) (a : α), l.find? p = some a → p a = true := by
  intro l
  induction l with
  | nil => intro a h; simp [List.find?] at h
  | cons b t ih =>
    intro a h
    by_cases hb : p b = true
    · rw [List.find?_cons] at h
      simp [hb] at h
      rwa [h] at hb
    · rw [List.find?_cons] at h
      simp at hb
      simp [hb] at h
      exact ih a h

/-- A successful `find?` yields the first element satisfying the test. -/
theorem find_first {α : Type} (p : α → Bool) :
    ∀ (l : List α) (a : α), l.find? p = some a →
      ∃ pre post, l = pre ++ a :: post ∧ ∀ x ∈ pre, p x = false := by
  intro l
  induction l with
  | nil => intro a h; simp [List.find?] at h
  | cons b t ih =>
    intro a h
    by_cases hb : p b = true
    · rw [List.find?_cons] at h
      simp [hb] at h
      exact ⟨[], t, by simp [h], by simp⟩
    · rw [List.find?_cons] at h
      simp at hb
      simp [hb] at h
      obtain ⟨pre, post, rfl, hpre⟩ := ih a h
      refine ⟨b :: pre, post, rfl, ?_⟩
      intro x hx
      rcases List.mem_cons.mp hx with rfl | hx
      · exact hb
      · exact hpre x hx

/-- When no element satisfies the test, `find?` returns `none`. -/
theorem find_none {α : Type} (p : α → Bool) :
    ∀ l : List α, (∀ x ∈ l, p x = false) → l.find? p = none := by
  intro l
  induction l with
  | nil => intro _; rfl
  | cons b t ih =>
    intro h
    rw [List.find?_cons]
    simp [h b (List.mem_cons_self b t)]
    intro x hx
    simp [h x (List.mem_cons_of_mem b hx)]

/-- With at least one criterion supplied, `_get_node`'s per-node test agrees
with the plain "every supplied criterion matches" predicate. -/
theorem matches_eq_criteria (n : Node) (node_id : Option Int)
    (address : Option String) (port : Option Int)
    (h : node_id.isSome ∨ address.isSome ∨ port.isSome) :
    matchesCriteria n node_id address port = criteriaHold n node_id address port := by
  rcases node_id with _ | i <;> rcases address with _ | a <;> rcases port with _ | q <;>
    simp_all [matchesCriteria, match_list, criteriaHold, Bool.and_assoc]

/-- With no criterion supplied, `_get_node`'s per-node test is always false. -/
theorem matches_none (n : Node) : matchesCriteria n none none none = false := rfl

/-- Python `dict.update` of an empty dict returns the update. -/
theorem dictUpdate_nil (u : Dict) : dictUpdate [] u = u := by
  simp [dictUpdate]

/-- Updating a non-empty dict gives a non-empty dict. -/
theorem dictUpdate_cons_isEmpty (a : String × Value) (d u : Dict) :
    (dictUpdate (a :: d) u).isEmpty = false := by
  simp [dictUpdate]

/-- When every supplied desired attribute equals the node's current one, the
`mutable` diff is empty. -/
theorem mutableDiff_eq_nil (n : Node) (cond typ : Option String) (w : Option Int)
    (hc : ∀ c, cond = some c → c = n.condition)
    (ht : ∀ t, typ = some t → t = n.typ)
    (hw : ∀ v, w = some v → v = n.weight) :
    mutableDiff n cond typ w = [] := by
  rcases cond with _ | c <;> rcases typ with _ | t <;> rcases w with _ | v <;>
    simp_all [mutableDiff]

/-- Unfolding of `runMain` to a match on the state-handling step. -/
theorem runMain_step (lb : LB) (p : Params) (dnf : Bool) (body : Dict)
    (statuses : Nat → String) :
    runMain lb p dnf body statuses =
      match stateStep lb p.state p.node_id p.address p.port
          (p.condition.map pyUpper) (p.typ.map pyUpper) p.weight
          (get_node lb.nodes p.node_id p.address p.port) dnf body with
      | .earlyExit c nd => .ok ⟨c, p.state, nd⟩
      | .earlyFail m => .fail m
      | .mutated _ result =>
        if p.wait then
          if !((wait_until_go statuses 0 lb.status
                  (pyOrTimeout p.wait_timeout).toNat).2 == "ACTIVE") then
            .fail ("Load balancer not active after " ++
                   toString (pyOrTimeout p.wait_timeout) ++
                   "s (current status: " ++
                   pyLower (wait_until_go statuses 0 lb.status
                     (pyOrTimeout p.wait_timeout).toNat).2 ++ ")")
          else .ok ⟨true, p.state, if result.isEmpty then none else some result⟩
        else .ok ⟨true, p.state, if result.isEmpty then none else some result⟩ := rfl

/-- An early `exit_json` in the state-handling block is the final outcome. -/
theorem runMain_of_earlyExit (lb : LB) (p : Params) (dnf : Bool) (body : Dict)
    (statuses : Nat → String) (c : Bool) (nd : Option Dict)
    (hstep : stateStep lb p.state p.node_id p.address p.port
        (p.condition.map pyUpper) (p.typ.map pyUpper) p.weight
        (get_node lb.nodes p.node_id p.address p.port) dnf body =
      .earlyExit c nd) :
    runMain lb p dnf body statuses = .ok ⟨c, p.state, nd⟩ := by
  rw [runMain_step, hstep]

/-- An early `fail_json` in the state-handling block is the final outcome. -/
theorem runMain_of_earlyFail (lb : LB) (p : Params) (dnf : Bool) (body : Dict)
    (statuses : Nat → String) (m : String)
    (hstep : stateStep lb p.state p.node_id p.address p.port
        (p.condition.map pyUpper) (p.typ.map pyUpper) p.weight
        (get_node lb.nodes p.node_id p.address p.port) dnf body =
      .earlyFail m) :
    runMain lb p dnf body statuses = .fail m := by
  rw [runMain_step, hstep]

/-- Without `wait`, a mutation exits with `changed=true` and the `node` key
present exactly when the result dict is non-empty. -/
theorem runMain_of_mutated_nowait (lb : LB) (p : Params) (dnf : Bool)
    (body : Dict) (statuses : Nat → String) (m : Mutation) (res : Dict)
    (hw : p.wait = false)
    (hstep : stateStep lb p.state p.node_id p.address p.port
        (p.condition.map pyUpper) (p.typ.map pyUpper) p.weight
        (get_node lb.nodes p.node_id p.address p.port) dnf body =
      .mutated m res) :
    runMain lb p dnf body statuses =
      .ok ⟨true, p.state, if res.isEmpty then none else some res⟩ := by
  rw [runMain_step, hstep]
  simp [hw]

/-- The status poll, run over a window with no "ACTIVE" reading, exhausts its
fuel and reports the last status polled. -/
theorem wait_go_stuck (statuses : Nat → String) :
    ∀ (fuel k : Nat) (last : String),
      (∀ j, j < fuel → statuses (k + j) ≠ "ACTIVE") →
      wait_until_go statuses k last fuel =
        (k + fuel, if fuel = 0 then last else statuses (k + fuel - 1)) := by
  intro fuel
  induction fuel with
  | zero => intro k last _; simp [wait_until_go]
  | succ m ih =>
    intro k last h
    have h0 : statuses k ≠ "ACTIVE" := by simpa using h 0 (Nat.succ_pos m)
    have hb : (statuses k == "ACTIVE") = false := by simp [h0]
    rw [wait_until_go]
    simp only [hb, Bool.false_eq_true, if_false]
    rw [ih (k + 1) (statuses k) (fun j hj => by
      have := h (j + 1) (by omega)
      simpa [Nat.add_assoc, Nat.add_comm 1 j] using this)]
    rcases m with _ | s
    · simp
    · simp only [Nat.succ_ne_zero, if_false]
      have e1 : k + 1 + (s + 1) = k + (s + 1 + 1) := by omega
      rw [e1]

/-- With positive fuel the status poll makes at least one attempt. -/
theorem wait_go_count_ge (statuses : Nat → String) :
    ∀ (fuel k : Nat) (last : String), 0 < fuel →
      k + 1 ≤ (wait_until_go statuses k last fuel).1 := by
  intro fuel
  induction fuel with
  | zero => intro k last h; omega
  | succ m ih =>
    intro k last _
    rw [wait_until_go]
    by_cases hb : (statuses k == "ACTIVE") = true
    · simp [hb]
    · simp only [Bool.not_eq_true] at hb
      simp only [hb, Bool.false_eq_true, if_false]
      rcases Nat.eq_zero_or_pos m with rfl | hm
      · simp [wait_until_go]
      · have := ih (k + 1) (statuses k) hm
        omega

/-- When an element satisfies the test and everything before it does not,
`find?` returns exactly that element. -/
theorem find_of_first {α : Type} (p : α → Bool) (pre post : List α) (a : α)
    (ha : p a = true) (hpre : ∀ x ∈ pre, p x = false) :
    (pre ++ a :: post).find? p = some a := by
  induction pre with
  | nil => simp [List.find?_cons, ha]
  | cons b t ih =>
    have hb := hpre b (List.mem_cons_self b t)
    rw [List.cons_append, List.find?_cons, hb]
    exact ih (fun x hx => hpre x (List.mem_cons_of_mem b hx))

/-- When `find?` misses, no element satisfies the test. -/
theorem find_none_all {α : Type} (p : α → Bool) :
    ∀ l : List α, l.find? p = none → ∀ x ∈ l, p x = false := by
  intro l
  induction l with
  | nil => simp
  | cons b t ih =>
    intro h x hx
    rw [List.find?_cons] at h
    by_cases hb : p b = true
    · simp [hb] at h
    · simp only [Bool.not_eq_true] at hb
      rw [hb] at h
      rcases List.mem_cons.mp hx with rfl | hx
      · exact hb
      · exact ih h x hx

/-! Claim theorems. -/

/-- C3: for every node collection and criteria set with at least one non-null
criterion, Lookup returns `some n` exactly when `n` is the first node of the
collection for which every supplied criterion exactly matches the
corresponding attribute (so when any node satisfies the criteria Lookup
returns the first such node), and returns null exactly when no node
satisfies all supplied criteria. -/
theorem C3_lookup_correct (nodes : List Node) (node_id : Option Int)
    (address : Option String) (port : Option Int)
    (h : node_id.isSome ∨ address.isSome ∨ port.isSome) :
    (∀ n, get_node nodes node_id address port = some n ↔
       ∃ pre post, nodes = pre ++ n :: post ∧
         criteriaHold n node_id address port = true ∧
         ∀ m ∈ pre, criteriaHold m node_id address port = false) ∧
    (get_node nodes node_id address port = none ↔
       ∀ m ∈ nodes, criteriaHold m node_id address port = false) := by
  have key : ∀ m : Node,
      matchesCriteria m node_id address port = criteriaHold m node_id address port :=
    fun m => matches_eq_criteria m node_id address port h
  constructor
  · intro n
    constructor
    · intro hn
      have h1 : criteriaHold n node_id address port = true := by
        have := find_sat _ nodes n hn
        rwa [key] at this
      obtain ⟨pre, post, heq, hpre⟩ := find_first _ nodes n hn
      refine ⟨pre, post, heq, h1, fun m hm => ?_⟩
      rw [← key]
      exact hpre m hm
    · rintro ⟨pre, post, rfl, h1, hpre⟩
      exact find_of_first _ pre post n (by rw [key]; exact h1)
        (fun x hx => by rw [key]; exact hpre x hx)
  · constructor
    · intro hnone m hm
      have := find_none_all _ nodes hnone m hm
      rwa [key] at this
    · intro hall
      exact find_none _ nodes (fun x hx => by rw [key]; exact hall x hx)

/-- Witness for C3 at a concrete collection: the lookup by id 2 must return
node 2 (the positive, completeness direction), and the lookup by the absent
id 5 must return null. -/
theorem C3_lookup_correct_witness :
    get_node [nodeP, nodeS] (some 2) none none = some nodeS ∧
    get_node [nodeP, nodeS] (some 5) none none = none := by
  constructor
  · exact ((C3_lookup_correct [nodeP, nodeS] (some 2) none none
      (Or.inl rfl)).1 nodeS).mpr ⟨[nodeP], [], rfl, by decide, by decide⟩
  · exact (C3_lookup_correct [nodeP, nodeS] (some 5) none none
      (Or.inl rfl)).2.mpr (by decide)

/-- C9: Lookup with all three criteria null returns null, and a PRESENT
request with no identifying criteria takes the CREATE path (never UPDATE or
NO_OP-with-match). -/
theorem C9_no_criteria_creates (lb : LB) (p : Params) (dnf : Bool) (body : Dict)
    (hstate : p.state = "present") (hn : p.node_id = none)
    (ha : p.address = none) (hp : p.port = none) :
    get_node lb.nodes none none none = none ∧
    stateStep lb p.state p.node_id p.address p.port
        (p.condition.map pyUpper) (p.typ.map pyUpper) p.weight
        (get_node lb.nodes p.node_id p.address p.port) dnf body =
      .mutated (.created p.address p.port (p.condition.map pyUpper)
        (p.typ.map pyUpper) p.weight) body := by
  have hempty : get_node lb.nodes none none none = none :=
    find_none _ lb.nodes (fun x _ => matches_none x)
  refine ⟨hempty, ?_⟩
  rw [hstate, hn, ha, hp, hempty]
  simp [stateStep, pyTruthyInt, dictUpdate_nil, rax_clb_node_to_dict]

/-- Witness for C9 at a concrete balancer and request. -/
theorem C9_no_criteria_creates_witness :
    get_node lbTwoNodes.nodes none none none = none ∧
    stateStep lbTwoNodes "present" none none none none none none
        (get_node lbTwoNodes.nodes none none none) false bodyCreateWait =
      .mutated (.created none none none none none) bodyCreateWait :=
  C9_no_criteria_creates lbTwoNodes
    ⟨none, none, none, none, "present", none, false, none, none⟩
    false bodyCreateWait rfl rfl rfl rfl

/-- C5: a `state=absent` request whose lookup finds no node exits successfully
with `changed=false` (a NO_OP, not an error). -/
theorem C5_absent_missing_noop (lb : LB) (p : Params) (dnf : Bool) (body : Dict)
    (statuses : Nat → String) (hstate : p.state = "absent")
    (hn : get_node lb.nodes p.node_id p.address p.port = none) :
    runMain lb p dnf body statuses = .ok ⟨false, p.state, none⟩ := by
  apply runMain_of_earlyExit
  rw [hstate, hn]
  simp [stateStep]

/-- Witness for C5: deleting the non-existent node 999. -/
theorem C5_absent_missing_noop_witness :
    runMain lbTwoNodes pDeleteMissing false [] (fun _ => "ACTIVE") =
      .ok ⟨false, "absent", none⟩ :=
  C5_absent_missing_noop lbTwoNodes pDeleteMissing false [] (fun _ => "ACTIVE")
    rfl (by decide)

/-- C6: reconciliation with `state=present` is idempotent — when the matched
node's condition, type, and weight already equal every non-null desired value
(after the module's upper-casing), the outcome is NO_OP with `changed=false`
and the node's attributes echoed back. -/
theorem C6_present_idempotent (lb : LB) (p : Params) (dnf : Bool) (body : Dict)
    (statuses : Nat → String) (n : Node) (hstate : p.state = "present")
    (hn : get_node lb.nodes p.node_id p.address p.port = some n)
    (hc : ∀ c, p.condition = some c → pyUpper c = n.condition)
    (ht : ∀ t, p.typ = some t → pyUpper t = n.typ)
    (hw : ∀ v, p.weight = some v → v = n.weight) :
    runMain lb p dnf body statuses =
      .ok ⟨false, p.state, some (rax_clb_node_to_dict (some n))⟩ := by
  apply runMain_of_earlyExit
  have hdiff : mutableDiff n (p.condition.map pyUpper)
      (p.typ.map pyUpper) p.weight = [] := by
    apply mutableDiff_eq_nil
    · intro c hcc
      rcases Option.map_eq_some'.mp hcc with ⟨a, ha, hax⟩
      rw [← hax]
      exact hc a ha
    · intro t htt
      rcases Option.map_eq_some'.mp htt with ⟨a, ha, hax⟩
      rw [← hax]
      exact ht a ha
    · intro v hvv
      exact hw v hvv
  rw [hstate, hn]
  simp [stateStep, hdiff]

/-- Witness for C6: re-asserting the attributes node 1 already has. -/
theorem C6_present_idempotent_witness :
    runMain lbTwoNodes pIdempotent false [] (fun _ => "ACTIVE") =
      .ok ⟨false, "present", some (rax_clb_node_to_dict (some nodeP))⟩ :=
  C6_present_idempotent lbTwoNodes pIdempotent false [] (fun _ => "ACTIVE") nodeP
    rfl (by decide)
    (fun c h => by cases h; decide)
    (fun t h => by cases h; decide)
    (fun v h => by cases h; rfl)

/-- C1 counterexample: on a balancer whose only node is its sole
primary-active node, a `state=absent` request matching that node fails with
the message "At least one primary node has to be enabled", which is not the
message "at least one primary node must remain enabled" stated by the claim. -/
theorem C1_counterexample :
    runMain lbOnlyPrimary pDeletePrimary false [] (fun _ => "ACTIVE") =
      .fail "At least one primary node has to be enabled" ∧
    "At least one primary node has to be enabled" ≠
      "at least one primary node must remain enabled" := by
  constructor
  · decide
  · decide

/-- C1 (amended): for every balancer with exactly one primary-active node, a
`state=absent` request whose lookup resolves to a primary-active node (hence
to that node) fails with the message "At least one primary node has to be
enabled" and never deletes the node. -/
theorem C1_amended_last_primary_fails (lb : LB) (p : Params) (dnf : Bool)
    (body : Dict) (statuses : Nat → String) (n : Node)
    (hstate : p.state = "absent")
    (hcount : (get_primary_nodes lb).length = 1)
    (hn : get_node lb.nodes p.node_id p.address p.port = some n)
    (hp : is_primary n = true) :
    runMain lb p dnf body statuses =
      .fail "At least one primary node has to be enabled" ∧
    ∀ m res, stateStep lb p.state p.node_id p.address p.port
        (p.condition.map pyUpper) (p.typ.map pyUpper) p.weight
        (get_node lb.nodes p.node_id p.address p.port) dnf body ≠
      .mutated (.deleted m) res := by
  have hstep : stateStep lb p.state p.node_id p.address p.port
      (p.condition.map pyUpper) (p.typ.map pyUpper) p.weight
      (get_node lb.nodes p.node_id p.address p.port) dnf body =
      .earlyFail "At least one primary node has to be enabled" := by
    rw [hstate, hn]
    simp [stateStep, hp, hcount]
  refine ⟨runMain_of_earlyFail lb p dnf body statuses _ hstep, ?_⟩
  intro m res
  rw [hstep]
  simp

/-- Witness for the amended C1 at the concrete one-primary balancer. -/
theorem C1_amended_last_primary_fails_witness :
    runMain lbOnlyPrimary pDeletePrimary true [] (fun _ => "BUILD") =
      .fail "At least one primary node has to be enabled" :=
  (C1_amended_last_primary_fails lbOnlyPrimary pDeletePrimary true []
    (fun _ => "BUILD") nodeP rfl (by decide) (by decide) (by decide)).1

/-- C4 counterexample: `node_id = 0` is supplied and matches no node, yet the
request with `state=present` takes the CREATE path and exits successfully —
not the claimed FAIL. -/
theorem C4_counterexample :
    get_node lbOnlyPrimary.nodes (some 0) (some "10.0.0.3") (some 8080) = none ∧
    stateStep lbOnlyPrimary "present" (some 0) (some "10.0.0.3") (some 8080)
        (some "ENABLED") (some "PRIMARY") (some 1) none false bodyZeroNodeId =
      .mutated (.created (some "10.0.0.3") (some 8080) (some "ENABLED")
        (some "PRIMARY") (some 1)) bodyZeroNodeId ∧
    runMain lbOnlyPrimary pZeroNodeId false bodyZeroNodeId (fun _ => "ACTIVE") =
      .ok ⟨true, "present", some bodyZeroNodeId⟩ := by
  refine ⟨by decide, by decide, by decide⟩

/-- C4 (amended): for every `state=present` request in which a non-zero
`node_id` was supplied and no node matches, the outcome is FAIL with the
"Node ... not found" message (listing the available node ids when the
balancer has any), and never a CREATE; a supplied `node_id` of 0 is treated
as absent and takes the CREATE path instead. -/
theorem C4_amended_missing_node_id_fails (lb : LB) (p : Params) (dnf : Bool)
    (body : Dict) (statuses : Nat → String) (k : Int)
    (hstate : p.state = "present") (hid : p.node_id = some k) (hk : k ≠ 0)
    (hn : get_node lb.nodes p.node_id p.address p.port = none) :
    runMain lb p dnf body statuses = .fail (nodeNotFoundMsg k lb.nodes) ∧
    ∀ a po c t w res, stateStep lb p.state p.node_id p.address p.port
        (p.condition.map pyUpper) (p.typ.map pyUpper) p.weight
        (get_node lb.nodes p.node_id p.address p.port) dnf body ≠
      .mutated (.created a po c t w) res := by
  have hstep : stateStep lb p.state p.node_id p.address p.port
      (p.condition.map pyUpper) (p.typ.map pyUpper) p.weight
      (get_node lb.nodes p.node_id p.address p.port) dnf body =
      .earlyFail (nodeNotFoundMsg k lb.nodes) := by
    rw [hstate, hn, hid]
    simp [stateStep, pyTruthyInt, hk]
  refine ⟨runMain_of_earlyFail lb p dnf body statuses _ hstep, ?_⟩
  intro a po c t w res
  rw [hstep]
  simp

/-- Witness for the amended C4: updating the non-existent node 999 fails and
its message lists the available node ids 1 and 2. -/
theorem C4_amended_missing_node_id_fails_witness :
    runMain lbTwoNodes pUpdateMissing false [] (fun _ => "ACTIVE") =
      .fail "Node 999 not found (available nodes: 1, 2)" := by
  have h := (C4_amended_missing_node_id_fails lbTwoNodes pUpdateMissing false []
    (fun _ => "ACTIVE") 999 rfl rfl (by decide) (by decide)).1
  simpa using h

/-- C2: the `mutable` diff sent to UPDATE contains exactly those attributes
among condition, type, weight whose desired value is non-null and differs
from the node's current value; a null or equal desired value never appears,
and no other key occurs. -/
theorem C2_diff_minimal (n : Node) (cond typ : Option String) (w : Option Int) :
    (∀ c, ("condition", Value.str c) ∈ mutableDiff n cond typ w ↔
       (cond = some c ∧ c ≠ n.condition)) ∧
    (∀ t, ("type", Value.str t) ∈ mutableDiff n cond typ w ↔
       (typ = some t ∧ t ≠ n.typ)) ∧
    (∀ v, ("weight", Value.int v) ∈ mutableDiff n cond typ w ↔
       (w = some v ∧ v ≠ n.weight)) ∧
    (∀ k val, (k, val) ∈ mutableDiff n cond typ w →
       k = "condition" ∨ k = "type" ∨ k = "weight") := by
  refine ⟨?_, ?_, ?_, ?_⟩
  · intro c
    rcases cond with _ | c0 <;> rcases typ with _ | t0 <;> rcases w with _ | v0 <;>
      simp [mutableDiff] <;> aesop
  · intro t
    rcases cond with _ | c0 <;> rcases typ with _ | t0 <;> rcases w with _ | v0 <;>
      simp [mutableDiff] <;> aesop
  · intro v
    rcases cond with _ | c0 <;> rcases typ with _ | t0 <;> rcases w with _ | v0 <;>
      simp [mutableDiff] <;> aesop
  · intro k val hk
    rcases cond with _ | c0 <;> rcases typ with _ | t0 <;> rcases w with _ | v0 <;>
      simp [mutableDiff] at hk <;> aesop

/-- Witness for C2: DRAINING differs from ENABLED, so it appears in the diff;
the current weight does not. -/
theorem C2_diff_minimal_witness :
    ("condition", Value.str "DRAINING") ∈
      mutableDiff nodeP (some "DRAINING") none (some 1) ∧
    ¬(("weight", Value.int 1) ∈ mutableDiff nodeP (some "DRAINING") none (some 1)) := by
  constructor
  · exact ((C2_diff_minimal nodeP (some "DRAINING") none (some 1)).1
      "DRAINING").mpr ⟨rfl, by decide⟩
  · intro hmem
    have h := ((C2_diff_minimal nodeP (some "DRAINING") none (some 1)).2.2.1
      1).mp hmem
    exact h.2 rfl

/-- C7: the output contract.  The changed-flag is false exactly for the NO_OP
outcomes (absent-without-match, the not-found race on delete, and
present-with-empty-diff) and true for every other successful outcome; the
result payload is the node's public attributes for NO_OP-with-match and
UPDATE, the created node's attributes for CREATE, empty (hence no `node` key)
for DELETE, and absent for NO_OP-without-match. -/
theorem C7_output_contract (lb : LB) (p : Params) (dnf : Bool) (body : Dict)
    (statuses : Nat → String) :
    (p.state = "absent" → get_node lb.nodes p.node_id p.address p.port = none →
       runMain lb p dnf body statuses = .ok ⟨false, p.state, none⟩) ∧
    (∀ n, p.state = "absent" →
       get_node lb.nodes p.node_id p.address p.port = some n →
       (is_primary n && ((get_primary_nodes lb).length == 1)) = false →
       dnf = true →
       runMain lb p dnf body statuses = .ok ⟨false, p.state, none⟩) ∧
    (∀ n, p.state = "absent" →
       get_node lb.nodes p.node_id p.address p.port = some n →
       (is_primary n && ((get_primary_nodes lb).length == 1)) = false →
       dnf = false →
       stateStep lb p.state p.node_id p.address p.port (p.condition.map pyUpper)
           (p.typ.map pyUpper) p.weight
           (get_node lb.nodes p.node_id p.address p.port) dnf body =
         .mutated (.deleted n) [] ∧
       (p.wait = false →
          runMain lb p dnf body statuses = .ok ⟨true, p.state, none⟩)) ∧
    (∀ n, p.state = "present" →
       get_node lb.nodes p.node_id p.address p.port = some n →
       mutableDiff n (p.condition.map pyUpper) (p.typ.map pyUpper) p.weight = [] →
       runMain lb p dnf body statuses =
         .ok ⟨false, p.state, some (rax_clb_node_to_dict (some n))⟩) ∧
    (∀ n, p.state = "present" →
       get_node lb.nodes p.node_id p.address p.port = some n →
       mutableDiff n (p.condition.map pyUpper) (p.typ.map pyUpper) p.weight ≠ [] →
       p.wait = false →
       runMain lb p dnf body statuses =
         .ok ⟨true, p.state, some (dictUpdate (rax_clb_node_to_dict (some n))
           (mutableDiff n (p.condition.map pyUpper) (p.typ.map pyUpper)
             p.weight))⟩) ∧
    (p.state = "present" → get_node lb.nodes p.node_id p.address p.port = none →
       pyTruthyInt p.node_id = false → p.wait = false → body ≠ [] →
       runMain lb p dnf body statuses = .ok ⟨true, p.state, some body⟩) := by
  refine ⟨?_, ?_, ?_, ?_, ?_, ?_⟩
  · intro hstate hn
    apply runMain_of_earlyExit
    rw [hstate, hn]
    simp [stateStep]
  · intro n hstate hn hguard hdnf
    apply runMain_of_earlyExit
    rw [hstate, hn, hdnf]
    simp [stateStep, hguard]
  · intro n hstate hn hguard hdnf
    have hstep : stateStep lb p.state p.node_id p.address p.port
        (p.condition.map pyUpper) (p.typ.map pyUpper) p.weight
        (get_node lb.nodes p.node_id p.address p.port) dnf body =
        .mutated (.deleted n) [] := by
      rw [hstate, hn, hdnf]
      simp [stateStep, hguard]
    refine ⟨hstep, fun hw => ?_⟩
    have := runMain_of_mutated_nowait lb p dnf body statuses (.deleted n) [] hw hstep
    simpa using this
  · intro n hstate hn hdiff
    apply runMain_of_earlyExit
    rw [hstate, hn]
    simp [stateStep, hdiff]
  · intro n hstate hn hdiff hw
    have hstep : stateStep lb p.state p.node_id p.address p.port
        (p.condition.map pyUpper) (p.typ.map pyUpper) p.weight
        (get_node lb.nodes p.node_id p.address p.port) dnf body =
        .mutated (.updated n (mutableDiff n (p.condition.map pyUpper)
          (p.typ.map pyUpper) p.weight))
          (dictUpdate (rax_clb_node_to_dict (some n))
            (mutableDiff n (p.condition.map pyUpper) (p.typ.map pyUpper)
              p.weight)) := by
      rw [hstate, hn]
      simp [stateStep, List.isEmpty_iff, hdiff]
    have := runMain_of_mutated_nowait lb p dnf body statuses _ _ hw hstep
    rw [this]
    simp [rax_clb_node_to_dict, dictUpdate_cons_isEmpty]
  · intro hstate hn hid hw hbody
    have hstep : stateStep lb p.state p.node_id p.address p.port
        (p.condition.map pyUpper) (p.typ.map pyUpper) p.weight
        (get_node lb.nodes p.node_id p.address p.port) dnf body =
        .mutated (.created p.address p.port (p.condition.map pyUpper)
          (p.typ.map pyUpper) p.weight) body := by
      rw [hstate, hn]
      simp [stateStep, hid, dictUpdate_nil, rax_clb_node_to_dict]
    have := runMain_of_mutated_nowait lb p dnf body statuses _ _ hw hstep
    rw [this]
    simp [List.isEmpty_iff, hbody]

/-- Witness for C7 at concrete requests: a NO_OP delete, an idempotent
update, and a successful delete of the secondary node. -/
theorem C7_output_contract_witness :
    runMain lbOnlyPrimary pDeleteMissing false [] (fun _ => "ACTIVE") =
      .ok ⟨false, "absent", none⟩ ∧
    runMain lbTwoNodes pDrainPrimary false [] (fun _ => "ACTIVE") =
      .ok ⟨true, "present", some (dictUpdate (rax_clb_node_to_dict (some nodeP))
        (mutableDiff nodeP (some "DRAINING") none none))⟩ ∧
    runMain lbTwoNodes pDeleteSecondary false [] (fun _ => "ACTIVE") =
      .ok ⟨true, "absent", none⟩ := by
  refine ⟨?_, ?_, ?_⟩
  · exact (C7_output_contract lbOnlyPrimary pDeleteMissing false []
      (fun _ => "ACTIVE")).1 rfl (by decide)
  · exact (C7_output_contract lbTwoNodes pDrainPrimary false []
      (fun _ => "ACTIVE")).2.2.2.2.1 nodeP rfl (by decide) (by decide) rfl
  · exact ((C7_output_contract lbTwoNodes pDeleteSecondary false []
      (fun _ => "ACTIVE")).2.2.1 nodeS rfl (by decide) (by decide) rfl).2 rfl

/-- C8: after a mutation with `wait=true`, the balancer status is polled once
per second; when no poll within the coerced timeout reads "ACTIVE", exactly
`wait_timeout` attempts are made and the outcome is FAIL with a message
reporting the elapsed seconds and the last observed status (lower-cased). -/
theorem C8_wait_timeout_fails (lb : LB) (p : Params) (dnf : Bool) (body : Dict)
    (statuses : Nat → String) (m : Mutation) (res : Dict)
    (hw : p.wait = true)
    (hstep : stateStep lb p.state p.node_id p.address p.port
        (p.condition.map pyUpper) (p.typ.map pyUpper) p.weight
        (get_node lb.nodes p.node_id p.address p.port) dnf body =
      .mutated m res)
    (hpos : 0 < (pyOrTimeout p.wait_timeout).toNat)
    (hna : ∀ k, k < (pyOrTimeout p.wait_timeout).toNat → statuses k ≠ "ACTIVE") :
    pollCount p.wait p.wait_timeout lb.status statuses =
      (pyOrTimeout p.wait_timeout).toNat ∧
    runMain lb p dnf body statuses =
      .fail ("Load balancer not active after " ++
             toString (pyOrTimeout p.wait_timeout) ++ "s (current status: " ++
             pyLower (statuses ((pyOrTimeout p.wait_timeout).toNat - 1)) ++
             ")") := by
  have hgo := wait_go_stuck statuses (pyOrTimeout p.wait_timeout).toNat 0
    lb.status (fun j hj => by simpa using hna j hj)
  have hne : (pyOrTimeout p.wait_timeout).toNat ≠ 0 := by omega
  constructor
  · rw [pollCount, if_pos hw, hgo]
    simp
  · have hlast : (wait_until_go statuses 0 lb.status
        (pyOrTimeout p.wait_timeout).toNat).2 =
        statuses ((pyOrTimeout p.wait_timeout).toNat - 1) := by
      rw [hgo]
      simp [hne]
    have hns := hna ((pyOrTimeout p.wait_timeout).toNat - 1) (by omega)
    have hnact : ((wait_until_go statuses 0 lb.status
        (pyOrTimeout p.wait_timeout).toNat).2 == "ACTIVE") = false := by
      rw [hlast]
      simp [hns]
    rw [runMain_step, hstep]
    simp only [hw, if_true, hnact, Bool.not_false, if_pos]
    rw [hlast]

/-- Witness for C8: the spec scenario — `wait_timeout=5`, status stuck at
BUILD — fails after exactly 5 attempts. -/
theorem C8_wait_timeout_fails_witness :
    pollCount true (some 5) "ACTIVE" (fun _ => "BUILD") = 5 ∧
    runMain lbTwoNodes pCreateWait false bodyCreateWait (fun _ => "BUILD") =
      .fail "Load balancer not active after 5s (current status: build)" := by
  have h := C8_wait_timeout_fails lbTwoNodes pCreateWait false bodyCreateWait
    (fun _ => "BUILD")
    (.created (some "10.0.0.4") (some 80) (some "ENABLED") (some "SECONDARY")
      none)
    bodyCreateWait rfl (by decide) (by decide)
    (fun k hk => by show "BUILD" ≠ "ACTIVE"; decide)
  constructor
  · exact h.1
  · have h2 := h.2
    simpa using h2

/-- C10 counterexample: a configured `wait_timeout` of -1 is not coerced (only
falsy values are), and with `wait=true` the poll then makes zero attempts —
not at least one. -/
theorem C10_counterexample :
    pyOrTimeout (some (-1)) = -1 ∧
    pollCount true (some (-1)) "BUILD" (fun _ => "BUILD") = 0 := by
  constructor
  · decide
  · decide

/-- C10 (amended): a `wait_timeout` of 0 or null is coerced to 1 before use,
so with `wait=true` the status poll makes at least one attempt whenever the
configured timeout is null or non-negative; a negative configured timeout is
passed through and yields zero attempts. -/
theorem C10_amended_timeout_coercion :
    pyOrTimeout none = 1 ∧ pyOrTimeout (some 0) = 1 ∧
    ∀ wt : Option Int, (∀ n, wt = some n → 0 ≤ n) →
      ∀ (init : String) (statuses : Nat → String),
        1 ≤ pollCount true wt init statuses := by
  refine ⟨rfl, rfl, ?_⟩
  intro wt hwt init statuses
  have hpos : 0 < (pyOrTimeout wt).toNat := by
    rcases wt with _ | n
    · decide
    · have h0 := hwt n rfl
      rw [pyOrTimeout]
      by_cases hn : (n == 0) = true
      · simp [hn]
      · simp only [hn, Bool.false_eq_true, if_false]
        simp at hn
        omega
  rw [pollCount, if_pos rfl]
  have := wait_go_count_ge statuses (pyOrTimeout wt).toNat 0 init hpos
  omega

/-- Witness for the amended C10: with the default-like configured timeouts the
poll makes at least one attempt. -/
theorem C10_amended_timeout_coercion_witness :
    1 ≤ pollCount true (some 0) "BUILD" (fun _ => "BUILD") :=
  C10_amended_timeout_coercion.2.2 (some 0)
    (fun n h => by cases h; decide) "BUILD" (fun _ => "BUILD")

end RaxClbNodes
